import Mathlib

/-!
Verification of the cwk1 image-convolution program (`image_processor.py`, `ui.py`)
against its natural-language specification.

Shallow embedding conventions:
* Python `List[List[int]]` pixel grids become `List (List ℤ)`.
* Python floats become real numbers `ℝ` (exact real arithmetic stands in for
  IEEE floats; the raised-exception structure is modelled exactly).
* A Python function that can raise becomes an `Except PyError` value; a method
  that mutates `self` becomes a function from the state to the new state paired
  with the outcome, so that mutations performed before a raise are visible.
* Integer `//` and `%` on Python ints agree with Lean's `Int` `/` and `%` for
  the positive divisor 2 used throughout the source.
-/

/-- Python exception values raised by the embedded code: `ValueError msg` and
`TypeError msg` (the latter message abbreviates the interpreter wording). -/
inductive PyError where
  | valueError (msg : String)
  | typeError (msg : String)
deriving DecidableEq, Repr

/-- Embeds `ImageProcessor.available_smoothing_kernels` (image_processor.py line 33),
the list installed by `__init__` and exposed by `get_available_kernels`. -/
def available_smoothing_kernels : List String := ["Gaussian", "Average", "Custom"]

/-- Embeds the unnormalized Gaussian grid of `__generate_gaussian_kernel`
(image_processor.py lines 88-92): `k = size // 2`, meshgrid coordinates over
`arange(-k, k+1)` (empty when `size` is negative, exactly as in numpy), and the
cell at row `i`, column `j` holding `exp(-(x^2 + y^2) / (2*sigma^2))` with
`x = j - k`, `y = i - k`. -/
noncomputable def gaussianRaw (size : ℤ) (sigma : ℝ) : List (List ℝ) :=
  let k : ℤ := size / 2
  (List.range (2 * k + 1).toNat).map (fun (i : ℕ) =>
    (List.range (2 * k + 1).toNat).map (fun (j : ℕ) =>
      Real.exp (-((((j : ℤ) - k) ^ 2 + ((i : ℤ) - k) ^ 2 : ℤ) : ℝ) / (2 * sigma ^ 2))))

/-- Sum of all entries of a matrix, `np.sum` on a 2D array. -/
noncomputable def entrySum (m : List (List ℝ)) : ℝ := (m.map List.sum).sum

/-- Embeds `__generate_gaussian_kernel` (image_processor.py lines 76-97): raises
`ValueError` when `size % 2 == 0` (Python modulo; no other validation exists in
the source, in particular `sigma` is never checked), otherwise builds the
Gaussian grid and divides it by the sum of its entries. The float special
values numpy would produce at `sigma = 0` are modelled by Lean's total real
division; the presence or absence of a raised exception matches the source on
every input. -/
noncomputable def generate_gaussian_kernel (size : ℤ) (sigma : ℝ) :
    Except PyError (List (List ℝ)) :=
  if size % 2 = 0 then
    Except.error (PyError.valueError "Kernel size must be odd to ensure a center pixel.")
  else
    let g := gaussianRaw size sigma
    let s := entrySum g
    Except.ok (g.map (fun row => row.map (fun v => v / s)))

/-- Embeds `__generate_average_kernel` (image_processor.py lines 99-117): raises
`ValueError` when `size % 2 == 0`; otherwise it builds the Python list
`[[1] * size for _ in range(size)]` and then executes `kernel /= (size * size)`,
which applies `/=` to a plain Python list and unconditionally raises
`TypeError`, so the function never returns a matrix. -/
def generate_average_kernel (size : ℤ) : Except PyError (List (List ℝ)) :=
  if size % 2 = 0 then
    Except.error
      (PyError.valueError "Kernel size must be an odd integer to ensure a center pixel.")
  else
    let _kernel : List (List ℤ) := List.replicate size.toNat (List.replicate size.toNat 1)
    Except.error (PyError.typeError "unsupported operand type for /=: list and int")

/-- Embeds `__pad_image` (image_processor.py lines 119-139): rejects an empty
image or an empty first row, rejects a kernel size below 1 or with
`kernel_size % 2 == 0`, then builds a zero grid of height
`h + 2*pad_size` and width `w + 2*pad_size` (`pad_size = kernel_size // 2`,
`w = len(image[0])`) and copies `image[row][col]` to
`padded[row + pad_size][col + pad_size]`. The imperative copy loop is rendered
as an index comprehension; the two agree on every rectangular image (the loop
indexes each row up to `len(image[0])`, so rectangularity is what the source
itself presumes). -/
def pad_image (kernel_size : ℤ) (image : List (List ℤ)) :
    Except PyError (List (List ℤ)) :=
  match image with
  | [] => Except.error (PyError.valueError "Input image cannot be empty")
  | row0 :: _ =>
    if row0 = [] then
      Except.error (PyError.valueError "Input image cannot be empty")
    else if kernel_size < 1 ∨ kernel_size % 2 = 0 then
      Except.error (PyError.valueError "Kernel size must be a positive odd integer")
    else
      let img_height := image.length
      let img_width := row0.length
      let pad_size := (kernel_size / 2).toNat
      Except.ok ((List.range (img_height + 2 * pad_size)).map (fun i =>
        (List.range (img_width + 2 * pad_size)).map (fun j =>
          if pad_size ≤ i ∧ i < img_height + pad_size ∧
              pad_size ≤ j ∧ j < img_width + pad_size then
            (image.getD (i - pad_size) []).getD (j - pad_size) 0
          else 0)))

/-- Embeds `__apply_kernel` (image_processor.py lines 144-150): despite its
docstring promising a processed 2D array, the body is the single statement
`return False`, so the embedding returns the Python boolean `False` for every
kernel and no grid is ever produced. -/
def apply_kernel (_kernel : List (List ℝ)) : Bool := false

/-- The mutable fields of `ImageProcessor` that the verified operations touch:
`current_smoothing_kernel`, `input_image_path`, `input_image_data`
(image_processor.py lines 15-16 and 34), each `None` after `__init__`. -/
structure ProcState where
  current_smoothing_kernel : Option (List (List ℝ))
  input_image_path : Option String
  input_image_data : Option (List (List ℤ))

/-- The state produced by `ImageProcessor.__init__`: every field `None`. -/
def initProcState : ProcState :=
  { current_smoothing_kernel := none, input_image_path := none, input_image_data := none }

/-- The keyword parameters `update_kernel` fetches with `params.get`:
`size` and `sigma`. -/
structure KernelParams where
  size : ℤ
  sigma : ℝ

/-- Embeds `update_kernel` (image_processor.py lines 58-74). The result pairs
the state after the call with the outcome, so mutations made before a raise are
observable: on `"Gaussian"` or `"Average"` the generator runs first and the
assignment to `current_smoothing_kernel` happens only if it returns; on any
other type the source first executes `self.current_smoothing_kernel = None` and
then raises `ValueError(f"Unsupported kernel type: {kernel_type}")`. -/
noncomputable def update_kernel (st : ProcState) (kernel_type : String)
    (params : KernelParams) : ProcState × Except PyError Unit :=
  if kernel_type = "Gaussian" then
    match generate_gaussian_kernel params.size params.sigma with
    | Except.ok k => ({ st with current_smoothing_kernel := some k }, Except.ok ())
    | Except.error e => (st, Except.error e)
  else if kernel_type = "Average" then
    match generate_average_kernel params.size with
    | Except.ok k => ({ st with current_smoothing_kernel := some k }, Except.ok ())
    | Except.error e => (st, Except.error e)
  else
    ({ st with current_smoothing_kernel := none },
      Except.error (PyError.valueError ("Unsupported kernel type: " ++ kernel_type)))

/-- Embeds `__load_image_grayscale` (image_processor.py lines 188-199). The
external codec `cv2.imread` is a parameter `imread` returning `none` on an
unreadable file (cv2 returns `None` rather than raising); the method raises
`ValueError` exactly when `imread` yields `none`. -/
def load_image_grayscale (imread : String → Option (List (List ℤ)))
    (file_path : String) : Except PyError (List (List ℤ)) :=
  match imread file_path with
  | none => Except.error (PyError.valueError ("Failed to load image: " ++ file_path))
  | some image => Except.ok image

/-- Embeds `set_target_image` (image_processor.py lines 156-170): inside
`try`, `input_image_data` is assigned the loaded grid and then
`input_image_path` is assigned the path, returning `True`; `except Exception`
catches the load failure before either assignment has happened and returns
`False`, so the function never raises. -/
def set_target_image (imread : String → Option (List (List ℤ)))
    (st : ProcState) (file_path : String) : ProcState × Bool :=
  match load_image_grayscale imread file_path with
  | Except.ok data =>
      ({ st with input_image_data := some data, input_image_path := some file_path }, true)
  | Except.error _ => (st, false)

/-- The fields of `MainApplication` that `on_apply_kernel` can observe: the
embedded `ImageProcessor` (whose `input_image_data` says whether an image is
loaded) and `selected_kernel` (ui.py lines 25 and 29, `None` initially). -/
structure UIState where
  image_processor : ProcState
  selected_kernel : Option String

/-- The observable effect of one `on_apply_kernel` call: either the
`messagebox.showwarning(title, msg)` path or the
`kernel_image_label.config(text)` path. -/
inductive ApplyOutcome where
  | warned (title : String) (msg : String)
  | labelSet (text : String)
deriving DecidableEq, Repr

/-- Embeds `on_apply_kernel` (ui.py lines 338-349): when
`not self.selected_kernel` (Python falsiness: `None` or the empty string) it
shows the "No Kernel Selected" warning and returns; otherwise it sets the
placeholder label text. No field other than `selected_kernel` is read: the
image state is never consulted. -/
def on_apply_kernel (st : UIState) : ApplyOutcome :=
  if st.selected_kernel = none ∨ st.selected_kernel = some "" then
    ApplyOutcome.warned "No Kernel Selected" "Please select a kernel first."
  else
    ApplyOutcome.labelSet ("Kernel: " ++ st.selected_kernel.getD "" ++ " applied")

/-- Modelled from the spec: the repository has no Normalizer (`__apply_kernel`
is an unimplemented stub and no clip-and-cast code exists anywhere in src), so
`quantize` follows the spec's words for a single raw value: clamp into
`[0, 255]`, then truncate to an integer by floor. Rational numbers stand in
for the raw floating-point values. -/
def quantize (v : ℚ) : ℤ := ⌊max 0 (min 255 v)⌋

/-- Concrete processor state with a kernel installed, used by the
counterexample and witness statements. -/
noncomputable def exampleProcState : ProcState :=
  { current_smoothing_kernel := some [[1]], input_image_path := none,
    input_image_data := none }

/-- Concrete parameter record used by the counterexample and witness
statements. -/
noncomputable def exampleParams : KernelParams := { size := 3, sigma := 1 }

/-- Concrete UI state in which no image has been loaded (the processor is in
its `__init__` state) while the Average kernel has been selected. -/
def exampleUIState : UIState :=
  { image_processor := initProcState, selected_kernel := some "Average" }

/-! ## Helper lemmas -/

/-- Indexing a `List.range`-comprehension row below its length yields the
generating function. -/
theorem getD_range_map {α : Type} (n : ℕ) (f : ℕ → α) (d : α) (i : ℕ) (hi : i < n) :
    ((List.range n).map f).getD i d = f i := by
  rw [List.getD_eq_getElem _ _ (by simpa using hi)]
  simp

/-- Indexing a `List.range`-comprehension matrix below its bounds yields the
generating function. -/
theorem matrix_getD {α : Type} (n m : ℕ) (f : ℕ → ℕ → α) (d : α) (i j : ℕ)
    (hi : i < n) (hj : j < m) :
    (((List.range n).map (fun i => (List.range m).map (f i))).getD i []).getD j d = f i j := by
  rw [getD_range_map n _ _ i hi, getD_range_map m _ d j hj]

/-- Dividing every element of a list divides its sum. -/
theorem list_sum_map_div (l : List ℝ) (c : ℝ) :
    (l.map (fun v => v / c)).sum = l.sum / c := by
  induction l with
  | nil => simp
  | cons a t ih => simp [ih, add_div]

/-- Dividing every entry of a matrix divides the total entry sum. -/
theorem entrySum_map_div (m : List (List ℝ)) (c : ℝ) :
    entrySum (m.map (fun row => row.map (fun v => v / c))) = entrySum m / c := by
  unfold entrySum
  rw [List.map_map]
  have h1 : (List.sum ∘ fun row : List ℝ => row.map (fun v => v / c)) =
      (fun row : List ℝ => row.sum / c) := funext (fun r => list_sum_map_div r c)
  rw [h1]
  have h2 : (fun row : List ℝ => row.sum / c) = ((fun s : ℝ => s / c) ∘ List.sum) := rfl
  rw [h2, ← List.map_map, list_sum_map_div]

/-- The unnormalized Gaussian grid has a positive entry sum for every
`size ≥ 1` (each entry is a positive exponential and the grid is nonempty). -/
theorem entrySum_gaussianRaw_pos (size : ℤ) (sigma : ℝ) (h1 : 1 ≤ size) :
    0 < entrySum (gaussianRaw size sigma) := by
  have hn : 1 ≤ (2 * (size / 2) + 1).toNat := by omega
  unfold gaussianRaw entrySum
  apply List.sum_pos
  · intro a ha
    simp only [List.map_map, List.mem_map, List.mem_range] at ha
    obtain ⟨i, _, rfl⟩ := ha
    apply List.sum_pos
    · intro b hb
      simp only [List.mem_map, List.mem_range] at hb
      obtain ⟨j, _, rfl⟩ := hb
      exact Real.exp_pos _
    · apply List.ne_nil_of_length_pos
      simp only [List.length_map, List.length_range]
      omega
  · apply List.ne_nil_of_length_pos
    simp only [List.length_map, List.length_range]
    omega

/-! ## Claim theorems -/

/-- C1 (code_bug evidence): `__apply_kernel` never produces a grid — for every
kernel its value is the Python boolean `False`, contradicting both its own
docstring and the specified cross-correlation result. -/
theorem apply_kernel_stub_returns_false :
    ∀ kernel : List (List ℝ), apply_kernel kernel = false :=
  fun _ => rfl

/-- C2 (code_bug evidence): `__generate_average_kernel` raises on every input —
`TypeError` at the odd size 3 (from `kernel /= (size * size)` on a Python
list), and more generally some exception for every size — so it never returns
the promised matrix of `1/size^2` entries. -/
theorem generate_average_kernel_always_raises :
    generate_average_kernel 3 =
      Except.error (PyError.typeError "unsupported operand type for /=: list and int") ∧
    ∀ size : ℤ, ∃ e, generate_average_kernel size = Except.error e := by
  refine ⟨rfl, fun size => ?_⟩
  unfold generate_average_kernel
  by_cases h : size % 2 = 0
  · rw [if_pos h]
    exact ⟨_, rfl⟩
  · rw [if_neg h]
    exact ⟨_, rfl⟩

/-- C5 (counterexample): the claim says Gaussian generation fails with
`InvalidParameter` whenever `sigma ≤ 0` and with `InvalidKernelSize` whenever
`size < 1`, but the source validates only `size % 2 == 0`: at `size = 3,
sigma = 0` and at `size = -1, sigma = 1` it raises nothing and returns a
matrix. -/
theorem gaussian_missing_validation_counterexample :
    (∃ K, generate_gaussian_kernel 3 0 = Except.ok K) ∧
    (∃ K, generate_gaussian_kernel (-1) 1 = Except.ok K) := by
  constructor
  · unfold generate_gaussian_kernel
    rw [if_neg (by decide)]
    exact ⟨_, rfl⟩
  · unfold generate_gaussian_kernel
    rw [if_neg (by decide)]
    exact ⟨_, rfl⟩

/-- C5 (amended): `__generate_gaussian_kernel` raises the invalid-size
`ValueError` exactly when `size % 2 == 0` under Python modulo — equivalently
when `size` is even — and returns a matrix for every other input; neither
`size < 1` nor `sigma` is validated. -/
theorem gaussian_validation_exact (size : ℤ) (sigma : ℝ) :
    (size % 2 = 0 → generate_gaussian_kernel size sigma =
      Except.error (PyError.valueError "Kernel size must be odd to ensure a center pixel.")) ∧
    (size % 2 ≠ 0 → ∃ K, generate_gaussian_kernel size sigma = Except.ok K) := by
  constructor
  · intro h
    unfold generate_gaussian_kernel
    rw [if_pos h]
  · intro h
    unfold generate_gaussian_kernel
    rw [if_neg h]
    exact ⟨_, rfl⟩

/-- C5 (witness): the amended theorem applied at the concrete even size 4. -/
theorem gaussian_validation_exact_witness :
    (4 : ℤ) % 2 = 0 ∧ generate_gaussian_kernel 4 1 =
      Except.error (PyError.valueError "Kernel size must be odd to ensure a center pixel.") :=
  ⟨by decide, (gaussian_validation_exact 4 1).1 (by decide)⟩

/-- C8: the spec-modelled Normalizer `quantize` is total by construction and
clamps below 0 to 0, above 255 to 255, floors in-range values, and maps the
three cited raw values `-10.0`, `300.0`, `127.6` to `0`, `255`, `127`. -/
theorem quantize_clamps_and_floors :
    (∀ v : ℚ, v < 0 → quantize v = 0) ∧
    (∀ v : ℚ, 255 < v → quantize v = 255) ∧
    (∀ v : ℚ, 0 ≤ v → v ≤ 255 → quantize v = ⌊v⌋) ∧
    quantize (-10) = 0 ∧ quantize 300 = 255 ∧ quantize (1276 / 10) = 127 := by
  refine ⟨fun v hv => ?_, fun v hv => ?_, fun v h0 h255 => ?_, ?_, ?_, ?_⟩
  · unfold quantize
    rw [min_eq_right (by linarith), max_eq_left (by linarith)]
    exact Int.floor_zero
  · unfold quantize
    rw [min_eq_left (by linarith), max_eq_right (by norm_num)]
    norm_num
  · unfold quantize
    rw [min_eq_right h255, max_eq_right h0]
  · norm_num [quantize]
  · norm_num [quantize]
  · norm_num [quantize]

/-- C8 (witness): the clamp-below branch of the quantize theorem applied at
the concrete raw value `-10`. -/
theorem quantize_clamps_witness : (-10 : ℚ) < 0 ∧ quantize (-10) = 0 :=
  ⟨by norm_num, quantize_clamps_and_floors.1 (-10) (by norm_num)⟩

/-- C10: `set_target_image` never raises; when the codec cannot read the file
it returns `false` and leaves `input_image_data` and `input_image_path`
exactly as they were, and on success it returns `true` and replaces both. -/
theorem set_target_image_total (imread : String → Option (List (List ℤ)))
    (st : ProcState) (file_path : String) :
    (imread file_path = none → set_target_image imread st file_path = (st, false)) ∧
    (∀ image, imread file_path = some image →
      set_target_image imread st file_path =
        ({ st with input_image_data := some image,
                   input_image_path := some file_path }, true)) := by
  constructor
  · intro h
    simp [set_target_image, load_image_grayscale, h]
  · intro image h
    simp [set_target_image, load_image_grayscale, h]

/-- C10 (witness): the failure branch applied to the codec that rejects every
path, starting from the freshly initialized processor. -/
theorem set_target_image_total_witness :
    (fun _ : String => (none : Option (List (List ℤ)))) "a.png" = none ∧
    set_target_image (fun _ => none) initProcState "a.png" = (initProcState, false) :=
  ⟨rfl, (set_target_image_total (fun _ => none) initProcState "a.png").1 rfl⟩

/-- C3 (counterexample): with the 1x1 kernel `[[1]]` installed, calling
`update_kernel` with the unknown type `"Foo"` does raise the unsupported-type
`ValueError`, but only after clearing `current_smoothing_kernel` to `None` —
the prior kernel is not left untouched, refuting the claim. -/
theorem update_kernel_unknown_clears_counterexample :
    exampleProcState.current_smoothing_kernel = some [[1]] ∧
    (update_kernel exampleProcState "Foo" exampleParams).1.current_smoothing_kernel = none ∧
    (update_kernel exampleProcState "Foo" exampleParams).2 =
      Except.error (PyError.valueError "Unsupported kernel type: Foo") := by
  refine ⟨rfl, ?_, ?_⟩ <;> simp [update_kernel]

/-- C3 (amended): for every unknown kernel type name, `update_kernel` fails
with the unsupported-type `ValueError`, and before raising it sets
`current_smoothing_kernel` to `None`, discarding any previously installed
kernel; the rest of the state is untouched. -/
theorem update_kernel_unknown_clears_then_raises (st : ProcState)
    (kernel_type : String) (params : KernelParams)
    (h1 : kernel_type ≠ "Gaussian") (h2 : kernel_type ≠ "Average") :
    update_kernel st kernel_type params =
      ({ st with current_smoothing_kernel := none },
        Except.error (PyError.valueError ("Unsupported kernel type: " ++ kernel_type))) := by
  simp [update_kernel, h1, h2]

/-- C3 (witness): the amended theorem applied at the unknown name `"Foo"`
starting from the freshly initialized processor. -/
theorem update_kernel_unknown_witness :
    "Foo" ≠ "Gaussian" ∧ "Foo" ≠ "Average" ∧
    update_kernel initProcState "Foo" exampleParams =
      ({ initProcState with current_smoothing_kernel := none },
        Except.error (PyError.valueError ("Unsupported kernel type: " ++ "Foo"))) :=
  ⟨by decide, by decide,
    update_kernel_unknown_clears_then_raises initProcState "Foo" exampleParams
      (by decide) (by decide)⟩

/-- C4 (code_bug evidence): `"Custom"` is listed in
`available_smoothing_kernels`, yet `update_kernel "Custom"` takes the
unsupported-type branch: it clears the installed kernel and raises
`ValueError("Unsupported kernel type: Custom")` instead of accepting the
caller-supplied matrix. -/
theorem custom_listed_but_rejected :
    "Custom" ∈ available_smoothing_kernels ∧
    (update_kernel exampleProcState "Custom" exampleParams).2 =
      Except.error (PyError.valueError "Unsupported kernel type: Custom") ∧
    (update_kernel exampleProcState "Custom" exampleParams).1.current_smoothing_kernel
      = none := by
  refine ⟨by simp [available_smoothing_kernels], ?_, ?_⟩ <;> simp [update_kernel]

/-- C9 (counterexample): with no image loaded (the processor still in its
`__init__` state) but the Average kernel selected, `on_apply_kernel` does not
fail with any not-ready diagnostic: it proceeds and sets the placeholder
label, refuting the claimed `NotReady(NoImageLoaded)` failure. -/
theorem apply_kernel_button_no_image_counterexample :
    exampleUIState.image_processor.input_image_data = none ∧
    on_apply_kernel exampleUIState = ApplyOutcome.labelSet "Kernel: Average applied" := by
  exact ⟨rfl, by simp [on_apply_kernel, exampleUIState]⟩

/-- C9 (amended): `on_apply_kernel` consults only `selected_kernel`: when none
is selected (or the selection is the falsy empty string) it warns "No Kernel
Selected" regardless of the image state, and otherwise it proceeds to set the
placeholder label even when no image has been loaded — there is no separate
`NoImageLoaded` failure kind. -/
theorem apply_kernel_button_behavior (proc : ProcState) :
    on_apply_kernel { image_processor := proc, selected_kernel := none } =
      ApplyOutcome.warned "No Kernel Selected" "Please select a kernel first." ∧
    ∀ k : String, k ≠ "" →
      on_apply_kernel { image_processor := proc, selected_kernel := some k } =
        ApplyOutcome.labelSet ("Kernel: " ++ k ++ " applied") := by
  constructor
  · simp [on_apply_kernel]
  · intro k hk
    simp [on_apply_kernel, hk]

/-- C9 (witness): the amended theorem applied at the freshly initialized
processor with the Average kernel selected. -/
theorem apply_kernel_button_behavior_witness :
    "Average" ≠ "" ∧
    on_apply_kernel { image_processor := initProcState, selected_kernel := some "Average" } =
      ApplyOutcome.labelSet ("Kernel: " ++ "Average" ++ " applied") :=
  ⟨by decide, (apply_kernel_button_behavior initProcState).2 "Average" (by decide)⟩

/-- C7: for every non-empty rectangular grid and every odd kernel size at
least 1, `__pad_image` succeeds with a grid whose height and width each grow
by exactly `kernel_size - 1` (twice the radius `kernel_size // 2`), whose
central sub-grid reproduces the input exactly, and whose border cells are all
zero. The embedding is a pure function of the input grid, so the input itself
is unchanged by construction. -/
theorem pad_image_correct (kernel_size : ℤ) (image : List (List ℤ)) (w r : ℕ)
    (hne : image ≠ []) (hw : ∀ row ∈ image, row.length = w) (hwpos : 0 < w)
    (hks : 1 ≤ kernel_size) (hodd : kernel_size % 2 = 1)
    (hr : r = (kernel_size / 2).toNat) :
    ∃ P, pad_image kernel_size image = Except.ok P ∧
      P.length = image.length + 2 * r ∧
      2 * r = (kernel_size - 1).toNat ∧
      (∀ row ∈ P, row.length = w + 2 * r) ∧
      (∀ i j : ℕ, i < image.length → j < w →
        (P.getD (r + i) []).getD (r + j) 0 = (image.getD i []).getD j 0) ∧
      (∀ i j : ℕ, i < image.length + 2 * r → j < w + 2 * r →
        (i < r ∨ r + image.length ≤ i ∨ j < r ∨ r + w ≤ j) →
        (P.getD i []).getD j 0 = 0) := by
  obtain ⟨row0, rest, rfl⟩ : ∃ a t, image = a :: t := by
    cases image with
    | nil => exact absurd rfl hne
    | cons a t => exact ⟨a, t, rfl⟩
  have hrow0 : row0.length = w := hw row0 (by simp)
  have hrow0ne : row0 ≠ [] := by
    intro hcon
    rw [hcon] at hrow0
    simp at hrow0
    omega
  have hcond : ¬(kernel_size < 1 ∨ kernel_size % 2 = 0) := by omega
  have hpad : pad_image kernel_size (row0 :: rest) =
      Except.ok ((List.range ((row0 :: rest).length + 2 * r)).map (fun i =>
        (List.range (w + 2 * r)).map (fun j =>
          if r ≤ i ∧ i < (row0 :: rest).length + r ∧ r ≤ j ∧ j < w + r then
            ((row0 :: rest).getD (i - r) []).getD (j - r) 0
          else 0))) := by
    simp only [pad_image]
    rw [if_neg hrow0ne, if_neg hcond]
    rw [hrow0, ← hr]
  refine ⟨_, hpad, ?_, by omega, ?_, ?_, ?_⟩
  · simp
  · intro row hrow
    simp only [List.mem_map, List.mem_range] at hrow
    obtain ⟨i, _, rfl⟩ := hrow
    simp
  · intro i j hi hj
    rw [getD_range_map _ _ _ _ (by omega), getD_range_map _ _ _ _ (by omega)]
    rw [if_pos (by refine ⟨by omega, by omega, by omega, by omega⟩)]
    rw [show r + i - r = i by omega, show r + j - r = j by omega]
  · intro i j hi hj hb
    rw [getD_range_map _ _ _ _ hi, getD_range_map _ _ _ _ hj]
    rw [if_neg (by omega)]

/-- C7 (witness): the padding theorem applied to the concrete 2x2 grid
`[[1, 2], [3, 4]]` with kernel size 3 (radius 1). -/
theorem pad_image_correct_witness :
    ([[1, 2], [3, 4]] : List (List ℤ)) ≠ [] ∧
    (∀ row ∈ ([[1, 2], [3, 4]] : List (List ℤ)), row.length = 2) ∧
    (0 : ℕ) < 2 ∧ (1 : ℤ) ≤ 3 ∧ (3 : ℤ) % 2 = 1 ∧ (1 : ℕ) = ((3 : ℤ) / 2).toNat ∧
    (∃ P, pad_image 3 [[1, 2], [3, 4]] = Except.ok P ∧
      P.length = ([[1, 2], [3, 4]] : List (List ℤ)).length + 2 * 1 ∧
      2 * 1 = ((3 : ℤ) - 1).toNat ∧
      (∀ row ∈ P, row.length = 2 + 2 * 1) ∧
      (∀ i j : ℕ, i < ([[1, 2], [3, 4]] : List (List ℤ)).length → j < 2 →
        (P.getD (1 + i) []).getD (1 + j) 0 =
          (([[1, 2], [3, 4]] : List (List ℤ)).getD i []).getD j 0) ∧
      (∀ i j : ℕ, i < ([[1, 2], [3, 4]] : List (List ℤ)).length + 2 * 1 →
        j < 2 + 2 * 1 →
        (i < 1 ∨ 1 + ([[1, 2], [3, 4]] : List (List ℤ)).length ≤ i ∨ j < 1 ∨ 1 + 2 ≤ j) →
        (P.getD i []).getD j 0 = 0)) :=
  ⟨by decide, by decide, by decide, by decide, by decide, by decide,
    pad_image_correct 3 [[1, 2], [3, 4]] 2 1 (by decide) (by decide) (by decide)
      (by decide) (by decide) (by decide)⟩

/-- C6: for every odd size at least 1 and positive sigma,
`__generate_gaussian_kernel` succeeds with a `size x size` matrix whose cell
at row `i`, column `j` (offsets `i - size/2`, `j - size/2` from the center)
equals `exp(-(x^2 + y^2) / (2*sigma^2))` divided by the sum of all
unnormalized entries, and whose entries sum to 1 exactly — in particular
within the specified `1e-6` tolerance. -/
theorem gaussian_kernel_correct (size : ℤ) (sigma : ℝ)
    (hodd : size % 2 = 1) (h1 : 1 ≤ size) (_hsigma : 0 < sigma) :
    ∃ K, generate_gaussian_kernel size sigma = Except.ok K ∧
      K.length = size.toNat ∧
      (∀ row ∈ K, row.length = size.toNat) ∧
      (∀ i j : ℕ, i < size.toNat → j < size.toNat →
        (K.getD i []).getD j 0 =
          Real.exp (-((((j : ℤ) - size / 2) ^ 2 + ((i : ℤ) - size / 2) ^ 2 : ℤ) : ℝ) /
              (2 * sigma ^ 2)) / entrySum (gaussianRaw size sigma)) ∧
      |entrySum K - 1| ≤ 1 / 1000000 := by
  have hne0 : size % 2 ≠ 0 := by omega
  have hn : (2 * (size / 2) + 1).toNat = size.toNat := by omega
  have hSpos : 0 < entrySum (gaussianRaw size sigma) :=
    entrySum_gaussianRaw_pos size sigma h1
  have hok : generate_gaussian_kernel size sigma =
      Except.ok ((gaussianRaw size sigma).map
        (fun row => row.map (fun v => v / entrySum (gaussianRaw size sigma)))) := by
    unfold generate_gaussian_kernel
    rw [if_neg hne0]
  refine ⟨_, hok, ?_, ?_, ?_, ?_⟩
  · unfold gaussianRaw
    simp [hn]
  · intro row hrow
    simp only [List.mem_map] at hrow
    obtain ⟨row1, hrow1, rfl⟩ := hrow
    unfold gaussianRaw at hrow1
    simp only [List.mem_map, List.mem_range] at hrow1
    obtain ⟨i, _, rfl⟩ := hrow1
    simp [hn]
  · intro i j hi hj
    unfold gaussianRaw
    rw [List.map_map]
    rw [getD_range_map _ _ _ i (by omega)]
    simp only [Function.comp]
    rw [List.map_map]
    rw [getD_range_map _ _ _ j (by omega)]
    simp [Function.comp]
  · rw [entrySum_map_div, div_self (ne_of_gt hSpos)]
    norm_num

/-- C6 (witness): the Gaussian theorem applied at the concrete size 1 and
sigma 1. -/
theorem gaussian_kernel_correct_witness :
    (1 : ℤ) % 2 = 1 ∧ (1 : ℤ) ≤ 1 ∧ (0 : ℝ) < 1 ∧
    (∃ K, generate_gaussian_kernel 1 1 = Except.ok K ∧
      K.length = (1 : ℤ).toNat ∧
      (∀ row ∈ K, row.length = (1 : ℤ).toNat) ∧
      (∀ i j : ℕ, i < (1 : ℤ).toNat → j < (1 : ℤ).toNat →
        (K.getD i []).getD j 0 =
          Real.exp (-((((j : ℤ) - 1 / 2) ^ 2 + ((i : ℤ) - 1 / 2) ^ 2 : ℤ) : ℝ) /
              (2 * (1 : ℝ) ^ 2)) / entrySum (gaussianRaw 1 1)) ∧
      |entrySum K - 1| ≤ 1 / 1000000) :=
  ⟨by decide, by decide, by norm_num,
    gaussian_kernel_correct 1 1 (by decide) (by decide) (by norm_num)⟩
